import Mathlib

/-!
Verification of the deduplication-aware Zotero export adapter
(`src/adapters/zotero.py` of feedder-mcp).

The Python values handled by the adapter (dicts, lists, strings, ints,
bools, None) are embedded as the inductive type `Val`; Python dicts are
association lists with first-key-wins lookup, which matches Python dict
semantics because a Python dict never holds a duplicate key.

The pure static helpers of the adapter (`_extract_create_result_counts`,
`_summarize_create_failures`, `_coerce_flat_item_dict`, `_coerce_creators`,
`_looks_like_collection_key`, `_paper_to_zotero_item`,
`_normalize_item_for_type`) are embedded directly from the source.

The export loop (`ZoteroAdapter.export`) is embedded as a fold over the
input papers.  The four awaited / imported callables that the loop invokes
inside its per-record try block (`paper_export_identity_keys`,
`_paper_to_zotero_item`, `create_item`, `zotero_data_identity_keys`) are
collected in an `ExportEnv`; each returns `Except String _`, a raised
exception being an `error`.  A ghost counter `createCalls` counts the
invocations of the remote create operation, mirroring the
`assert_awaited` checks of the unit tests of the repository.

`src/utils/dedup.py` and `src/models/responses.py` are imported by the
adapter but are not part of the source tree; the definitions marked
`Modelled from the spec:` reconstruct them from spec sections 3, 4.1
and 4.2.
-/

/-- Embedded Python value: dicts are association lists (no duplicate keys
arise in practice, and lookup is first-key-wins as in Python). -/
inductive Val where
  | none
  | bool (b : Bool)
  | int (n : Int)
  | str (s : String)
  | list (xs : List Val)
  | dict (xs : List (String × Val))

/-- A Python dict embedded as an association list. -/
abbrev PyDict := List (String × Val)

/-- An outgoing Zotero item payload (a flat Python dict). -/
abbrev ZItem := PyDict

/-- An identity key: a (kind, normalized value) pair, kind being one of
"doi", "title_date", "url". -/
abbrev IdentityKey := String × String

/-- `d.get(k)` with the Python default of `None`. -/
def pyGet (m : PyDict) (k : String) : Val :=
  (m.lookup k).getD Val.none

/-- Python truthiness of an embedded value. -/
def truthy : Val → Bool
  | Val.none => false
  | Val.bool b => b
  | Val.int n => n != 0
  | Val.str s => s != ""
  | Val.list xs => !xs.isEmpty
  | Val.dict xs => !xs.isEmpty

/-- Python `a or b` on values: `a` when truthy, else `b`. -/
def pyOr (a b : Val) : Val :=
  if truthy a then a else b

/-- Whether the value is a Python dict (`isinstance(v, dict)`). -/
def isDict : Val → Bool
  | Val.dict _ => true
  | _ => false

/-- Whether the value is Python `None`. -/
def isNoneV : Val → Bool
  | Val.none => true
  | _ => false

/-- The entries of a value when it is a dict. -/
def asDict : Val → Option PyDict
  | Val.dict m => some m
  | _ => Option.none

/-! ### String primitives

The embedding implements the Python string operations it needs
(`strip`, `lower`, `split`, `replace`, affix tests) by structural
recursion over the character list of a `String`, so that every
definition evaluates by kernel reduction on concrete inputs. -/

/-- Whether `p` is an initial segment of `xs`. -/
def charsHaveStart : List Char → List Char → Bool
  | [], _ => true
  | _ :: _, [] => false
  | p :: ps, c :: cs => p == c && charsHaveStart ps cs

/-- Python `s.strip()`: drop whitespace from both ends. -/
def strTrim (s : String) : String :=
  (((s.data.dropWhile Char.isWhitespace).reverse.dropWhile Char.isWhitespace).reverse).asString

/-- Python `s.lower()`. -/
def strToLower (s : String) : String :=
  (s.data.map Char.toLower).asString

/-- Python `s.startswith(p)`. -/
def strStartsWith (s p : String) : Bool :=
  charsHaveStart p.data s.data

/-- Python `s.endswith(p)`. -/
def strEndsWith (s p : String) : Bool :=
  charsHaveStart p.data.reverse s.data.reverse

/-- Drop the first `n` characters. -/
def strDrop (s : String) (n : Nat) : String :=
  (s.data.drop n).asString

/-- Drop the last `n` characters. -/
def strDropRight (s : String) (n : Nat) : String :=
  (s.data.take (s.data.length - n)).asString

/-- Split on a single separator character (Python `s.split(sep)` for a
one-character separator): adjacent separators yield empty chunks. -/
def splitOnChar (sep : Char) : List Char → List (List Char)
  | [] => [[]]
  | c :: cs =>
    let r := splitOnChar sep cs
    if c == sep then [] :: r
    else
      match r with
      | h :: t => (c :: h) :: t
      | [] => [[c]]

/-- Replace every occurrence of the nonempty pattern `pat` by `rep`,
scanning left to right; `fuel` bounds the recursion and is instantiated
with the input length. -/
def replaceSeq (fuel : Nat) (pat rep : List Char) (xs : List Char) : List Char :=
  match fuel, xs with
  | 0, xs => xs
  | _, [] => []
  | Nat.succ f, c :: cs =>
    if charsHaveStart pat (c :: cs) then
      rep ++ replaceSeq f pat rep ((c :: cs).drop pat.length)
    else c :: replaceSeq f pat rep cs

/-- Python `s.replace(pat, rep)` for a nonempty pattern. -/
def strReplace (s pat rep : String) : String :=
  (replaceSeq s.data.length pat.data rep.data s.data).asString

/-- The chunk before the first occurrence of `seq` and the remainder
after it, when `seq` occurs. -/
def breakOnSeq (seq : List Char) : List Char → Option (List Char × List Char)
  | [] => Option.none
  | c :: cs =>
    if charsHaveStart seq (c :: cs) then some ([], (c :: cs).drop seq.length)
    else
      match breakOnSeq seq cs with
      | some (pre, post) => some (c :: pre, post)
      | Option.none => Option.none

/-- The whitespace-separated words of a string (Python `s.split()` with
no argument: runs of whitespace collapse, outer whitespace drops). -/
def wordsAux : List Char → List Char → List (List Char)
  | [], acc => if acc.isEmpty then [] else [acc.reverse]
  | c :: cs, acc =>
    if c.isWhitespace then
      if acc.isEmpty then wordsAux cs [] else acc.reverse :: wordsAux cs []
    else wordsAux cs (c :: acc)

/-- A single-quote character, used by the Python `repr` rendering. -/
def pyQuote : String := String.singleton (Char.ofNat 39)

mutual

/-- Python `repr` of an embedded value (used by `str` on non-strings). -/
def pyRepr : Val → String
  | Val.none => "None"
  | Val.bool true => "True"
  | Val.bool false => "False"
  | Val.int n => toString n
  | Val.str s => pyQuote ++ s ++ pyQuote
  | Val.list xs => "[" ++ ", ".intercalate (pyReprList xs) ++ "]"
  | Val.dict xs => "\x7b" ++ ", ".intercalate (pyReprDict xs) ++ "\x7d"

/-- `repr` of each element of a list. -/
def pyReprList : List Val → List String
  | [] => []
  | x :: xs => pyRepr x :: pyReprList xs

/-- `repr` of each entry of a dict. -/
def pyReprDict : List (String × Val) → List String
  | [] => []
  | (k, v) :: xs => (pyQuote ++ k ++ pyQuote ++ ": " ++ pyRepr v) :: pyReprDict xs

end

/-- Python `str(v)`: strings render as themselves, other values as their
`repr`. -/
def pyStr : Val → String
  | Val.str s => s
  | v => pyRepr v

/-- `isinstance(v, int)` in Python is also true for `bool`; returns the
integer value when int-like. -/
def intLike : Val → Option Int
  | Val.int n => some n
  | Val.bool b => some (if b then 1 else 0)
  | _ => Option.none

/-- The `_count` helper of `ZoteroAdapter._extract_create_result_counts`:
an int counts as `max 0 value`, a list or dict as its number of entries,
anything else as zero. -/
def pyCount (v : Val) : Nat :=
  match intLike v with
  | some n => n.toNat
  | Option.none =>
    match v with
    | Val.list xs => xs.length
    | Val.dict xs => xs.length
    | _ => 0

/-- The named-alternate scan of `_extract_create_result_counts`: the first
key whose value is a positive int wins; otherwise zero. -/
def firstPosInt (m : PyDict) (keys : List String) : Nat :=
  match keys with
  | [] => 0
  | k :: rest =>
    match intLike (pyGet m k) with
    | some n => if 0 < n then n.toNat else firstPosInt m rest
    | Option.none => firstPosInt m rest

/-- `ZoteroAdapter._extract_create_result_counts`: parse a create_item
result into (created, skipped, failed) counts.  A non-dict result yields
(0, 0, 0). -/
def extractCreateResultCounts (result : Val) : Nat × Nat × Nat :=
  match result with
  | Val.dict m =>
    let createdN := pyCount (pyGet m "created")
    let skippedN := pyCount (pyGet m "skipped_duplicates")
    let failedN0 := pyCount (pyGet m "failed")
    let failedN := if failedN0 = 0 then pyCount (pyGet m "failures") else failedN0
    if createdN = 0 ∧ skippedN = 0 ∧ failedN = 0 then
      (firstPosInt m ["created_count", "success_count", "inserted_count"],
       firstPosInt m ["skipped_count", "duplicate_count"],
       firstPosInt m ["failed_count", "error_count"])
    else
      (createdN, skippedN, failedN)
  | _ => (0, 0, 0)

/-- Message of one entry of a `failed` mapping in
`_summarize_create_failures`: a dict entry prefers its `message` or
`error` field, anything else renders via `str`. -/
def detailMsg (detail : Val) : String :=
  match detail with
  | Val.dict dm =>
    let msg := pyOr (pyGet dm "message") (pyGet dm "error")
    if truthy msg then pyStr msg else pyStr detail
  | d => pyStr d

/-- Messages of a `failures` list in `_summarize_create_failures`: dict
entries contribute only a truthy `message`/`error`, other truthy entries
render via `str`. -/
def failuresMsgs (fs : List Val) : List String :=
  fs.foldr
    (fun detail acc =>
      match detail with
      | Val.dict dm =>
        let msg := pyOr (pyGet dm "message") (pyGet dm "error")
        if truthy msg then pyStr msg :: acc else acc
      | d => if truthy d then pyStr d :: acc else acc)
    []

/-- Order-preserving deduplication keeping first occurrences
(`list(dict.fromkeys(messages))`). -/
def dedupFirst (xs : List String) : List String :=
  xs.foldl (fun acc x => if x ∈ acc then acc else acc ++ [x]) []

/-- `ZoteroAdapter._summarize_create_failures`: prefer per-entry messages
of a nonempty `failed` dict, then of a nonempty `failures` list, then a
generic count message. -/
def summarizeCreateFailures (result : Val) (failedN : Nat) : String :=
  let fb := "create_item reported " ++ toString failedN ++ " failed item(s)"
  match result with
  | Val.dict m =>
    let fromFailed : List String :=
      match pyGet m "failed" with
      | Val.dict fm => if fm.isEmpty then [] else fm.map (fun kv => detailMsg kv.2)
      | _ => []
    if fromFailed ≠ [] then "; ".intercalate (dedupFirst fromFailed)
    else
      let fromFailures : List String :=
        match pyGet m "failures" with
        | Val.list fs => if fs.isEmpty then [] else failuresMsgs fs
        | _ => []
      if fromFailures ≠ [] then "; ".intercalate (dedupFirst fromFailures)
      else fb
  | _ => fb

/-- `ZoteroAdapter._coerce_creators`: accepts a list of dicts-with-name,
a list of strings, or one delimited string; anything else yields `[]`. -/
def coerceCreators : Val → List Val
  | Val.list xs =>
    xs.foldr
      (fun entry acc =>
        match entry with
        | Val.dict em =>
          let nm := pyOr (pyGet em "name") (pyOr (pyGet em "lastName") (pyGet em "firstName"))
          if truthy nm then Val.dict em :: acc else acc
        | Val.str s =>
          let nm := strTrim s
          if nm ≠ "" then
            Val.dict [("creatorType", Val.str "author"), ("name", Val.str nm)] :: acc
          else acc
        | _ => acc)
      []
  | Val.str s =>
    let normalized := strReplace s " and " ";"
    ((splitOnChar ';' normalized.data).map List.asString).foldr
      (fun chunk acc =>
        let nm := strTrim chunk
        if nm ≠ "" then
          Val.dict [("creatorType", Val.str "author"), ("name", Val.str nm)] :: acc
        else acc)
      []
  | _ => []

/-- One `mapped[k] = v`-guarded-by-`k not in mapped` step of
`_coerce_flat_item_dict`: append only when `cond` holds and the key is
absent. -/
def addIfAbsent (m : PyDict) (k : String) (v : Val) (cond : Bool) : PyDict :=
  if cond && (m.lookup k).isNone then m ++ [(k, v)] else m

/-- The field-merging tail of `ZoteroAdapter._coerce_flat_item_dict`:
`mapped` starts as the (possibly empty) flat `raw_data` mapping, then
title, DOI, date (with the year fallback), creators and url from the
top-level item are written each only if its key is still absent. -/
def coerceMerge (item : PyDict) (mapped0 : PyDict) : PyDict :=
  let t := pyGet item "title"
  let m1 := addIfAbsent mapped0 "title" t (truthy t)
  let doi := pyOr (pyGet item "DOI") (pyGet item "doi")
  let m2 := addIfAbsent m1 "DOI" doi (truthy doi)
  let dv0 := pyGet item "date"
  let dv :=
    if truthy dv0 then dv0
    else
      let y := pyGet item "year"
      if !isNoneV y && (strTrim (pyStr y) != "") then Val.str (pyStr y) else dv0
  let m3 := addIfAbsent m2 "date" (Val.str (pyStr dv)) (truthy dv)
  let cs := coerceCreators (pyOr (pyGet item "creators") (pyGet item "authors"))
  let m4 := addIfAbsent m3 "creators" (Val.list cs) (!cs.isEmpty)
  let u := pyGet item "url"
  let m5 := addIfAbsent m4 "url" u (truthy u)
  if m5.isEmpty then item else [("data", Val.dict m5)]

/-- The `raw_data` dispatch of `_coerce_flat_item_dict`: a `raw_data`
dict holding a nested `data` dict is returned as-is, a flat `raw_data`
dict seeds the merge, anything else merges from scratch. -/
def coerceRaw (item : PyDict) : Option PyDict → PyDict
  | some raw => if isDict (pyGet raw "data") then raw else coerceMerge item raw
  | Option.none => coerceMerge item []

/-- `ZoteroAdapter._coerce_flat_item_dict`: passthrough when a nested
`data` dict is present, unwrap `raw_data` when it holds a nested `data`
dict, otherwise merge recognized fields into a fresh `data` mapping. -/
def coerceFlatItemDict (item : PyDict) : PyDict :=
  if isDict (pyGet item "data") then item
  else coerceRaw item (asDict (pyGet item "raw_data"))

/-- The `data` mapping of a coerced item (the shape the identity-key
deriver consumes). -/
def coercedData (d : PyDict) : PyDict :=
  match pyGet d "data" with
  | Val.dict m => m
  | _ => []

/-- `ZoteroAdapter._looks_like_collection_key`: exactly eight ASCII
alphanumeric characters (`re.fullmatch` of `[A-Za-z0-9]` repeated 8
times). -/
def looksLikeCollectionKey (value : String) : Bool :=
  value.length == 8 && value.data.all Char.isAlphanum

/-- The (name, key) pair of one entry of a `get_collections` result, when
both are strings (the per-item guards of `_resolve_collection_key`). -/
def collectionEntry (item : Val) : Option (String × String) :=
  match item with
  | Val.dict im =>
    let data := match pyGet im "data" with | Val.dict dm => dm | _ => im
    let nameV := pyGet data "name"
    let keyV := pyOr (pyGet im "key") (pyGet data "key")
    match nameV, keyV with
    | Val.str n, Val.str k => some (n, k)
    | _, _ => Option.none
  | _ => Option.none

/-- The name-matching loop of `_resolve_collection_key`: first component
is the exact-match key (the loop breaks on it), second the first
case-insensitive match.  `casefold` is modelled as lowercasing. -/
def scanCollections (items : List Val) (value : String) (cf : Option String) :
    Option String × Option String :=
  match items with
  | [] => (Option.none, cf)
  | it :: rest =>
    match collectionEntry it with
    | Option.none => scanCollections rest value cf
    | some (n, k) =>
      if n = value then (some k, cf)
      else
        let cf' := if cf.isNone && (strToLower n == strToLower value) then some k else cf
        scanCollections rest value cf'

/-- Python truthiness of an optional string. -/
def optStrTruthy : Option String → Bool
  | some s => s != ""
  | Option.none => false

/-- `ZoteroAdapter._resolve_collection_key`.  `getCollections` models the
optional collection-listing capability of the remote client: `none` when the
attribute is missing or not callable, otherwise the awaited outcome of
invoking it (an exception being `error`).  The source never raises: every
fallback path returns the trimmed identifier unchanged. -/
def resolveCollectionKey (getCollections : Option (Except String Val))
    (collection_id : Option String) : Option String :=
  match collection_id with
  | Option.none => Option.none
  | some cid0 =>
    if cid0 = "" then Option.none
    else
      let value := strTrim cid0
      if value = "" then Option.none
      else if looksLikeCollectionKey value then some value
      else
        match getCollections with
        | Option.none => some value
        | some (Except.error _) => some value
        | some (Except.ok raw) =>
          match raw with
          | Val.list items =>
            let scanned := scanCollections items value Option.none
            let resolved := if optStrTruthy scanned.1 then scanned.1 else scanned.2
            if optStrTruthy resolved then resolved else some value
          | _ => some value

/-- The discovery outcome of one (target, method-name) candidate pair of
`ZoteroAdapter._list_existing_items`: the attribute may be missing or not
callable, the invocation may raise (a signature `TypeError` and any other
exception both just move on to the next candidate), or it may return a
normalized item list (`none` when the result shape is unrecognized, which
also moves on). -/
inductive CandidateOutcome where
  | notCallable
  | raised (msg : String)
  | attempt (items : Option (List Val))

/-- The error message raised by `_list_existing_items` when no candidate
succeeds. -/
def noCompatibleListMsg : String :=
  "Unable to list existing Zotero items for deduplication. No compatible list/get method found on zotero-mcp client."

/-- `ZoteroAdapter._list_existing_items`: the first candidate that returns
an item list wins; if none does, raise the no-compatible-method error. -/
def listExistingItems : List CandidateOutcome → Except String (List Val)
  | [] => Except.error noCompatibleListMsg
  | c :: rest =>
    match c with
    | CandidateOutcome.attempt (some items) => Except.ok items
    | _ => listExistingItems rest

/-! ## Local paper records and the outgoing payload -/

/-- The local `PaperItem` record (from `src/models/responses.py`, not in
the source tree): only the fields the adapter reads.  Dates are carried as
their ISO strings (the adapter only ever calls `isoformat()` on them). -/
structure Paper where
  title : String
  authors : List String := []
  abstract : Option String := Option.none
  published_date : Option String := Option.none
  access_date : Option String := Option.none
  item_type : Option String := Option.none
  publication_title : Option String := Option.none
  journal_abbreviation : Option String := Option.none
  publisher : Option String := Option.none
  place : Option String := Option.none
  volume : Option String := Option.none
  issue : Option String := Option.none
  pages : Option String := Option.none
  section_ : Option String := Option.none
  part_number : Option String := Option.none
  part_title : Option String := Option.none
  series : Option String := Option.none
  series_title : Option String := Option.none
  series_text : Option String := Option.none
  doi : Option String := Option.none
  citation_key : Option String := Option.none
  url : Option String := Option.none
  pmid : Option String := Option.none
  pmcid : Option String := Option.none
  issn : Option String := Option.none
  archive : Option String := Option.none
  archive_location : Option String := Option.none
  short_title : Option String := Option.none
  language : Option String := Option.none
  library_catalog : Option String := Option.none
  call_number : Option String := Option.none
  rights : Option String := Option.none

/-- An optional string as a Python value. -/
def optVal : Option String → Val
  | some s => Val.str s
  | Option.none => Val.none

/-- The conservative preprint field allowlist of
`ZoteroAdapter._normalize_item_for_type`. -/
def allowedPreprintFields : List String :=
  ["itemType", "title", "creators", "abstractNote", "repository", "archive",
   "archiveLocation", "DOI", "citationKey", "url", "accessDate", "date",
   "shortTitle", "language", "rights", "collections", "extra"]

/-- `ZoteroAdapter._normalize_item_for_type`: for a preprint, copy
`publicationTitle` into `repository` when the latter is not set, then keep
only the allowlisted fields. -/
def normalizeItemForType (zitem : ZItem) (item_type : String) : ZItem :=
  let normalizedType := strToLower (strTrim item_type)
  if normalizedType ≠ "preprint" then zitem
  else
    let pubTitle := pyGet zitem "publicationTitle"
    let z1 :=
      if truthy pubTitle && !truthy (pyGet zitem "repository") then
        zitem ++ [("repository", pubTitle)]
      else zitem
    z1.filter (fun kv => allowedPreprintFields.contains kv.1)

/-- `ZoteroAdapter._paper_to_zotero_item`: the bibliographic field mapping
in source order, the collection attachment, the item-type normalization,
and the final drop of `None`-valued fields.  `nowStr` stands for the
`datetime.now()` access-date default. -/
def paperToZoteroItem (nowStr : String) (p : Paper)
    (collectionKeys : Option (List String)) : ZItem :=
  let item_type :=
    match p.item_type with
    | some s => if s = "" then "journalArticle" else s
    | Option.none => "journalArticle"
  let creators :=
    Val.list (p.authors.map
      (fun a => Val.dict [("creatorType", Val.str "author"), ("name", Val.str a)]))
  let abstractV :=
    match p.abstract with
    | some s => if s = "" then Val.none else Val.str s
    | Option.none => Val.none
  let accessV := Val.str ((p.access_date).getD nowStr)
  let base : ZItem :=
    [("itemType", Val.str item_type),
     ("title", Val.str p.title),
     ("creators", creators),
     ("abstractNote", abstractV),
     ("publicationTitle", optVal p.publication_title),
     ("journalAbbreviation", optVal p.journal_abbreviation),
     ("publisher", optVal p.publisher),
     ("place", optVal p.place),
     ("volume", optVal p.volume),
     ("issue", optVal p.issue),
     ("pages", optVal p.pages),
     ("section", optVal p.section_),
     ("partNumber", optVal p.part_number),
     ("partTitle", optVal p.part_title),
     ("series", optVal p.series),
     ("seriesTitle", optVal p.series_title),
     ("seriesText", optVal p.series_text),
     ("DOI", optVal p.doi),
     ("citationKey", optVal p.citation_key),
     ("url", optVal p.url),
     ("accessDate", accessV),
     ("PMID", optVal p.pmid),
     ("PMCID", optVal p.pmcid),
     ("ISSN", optVal p.issn),
     ("archive", optVal p.archive),
     ("archiveLocation", optVal p.archive_location),
     ("shortTitle", optVal p.short_title),
     ("language", optVal p.language),
     ("libraryCatalog", optVal p.library_catalog),
     ("callNumber", optVal p.call_number),
     ("rights", optVal p.rights),
     ("date", optVal p.published_date)]
  let withColl :=
    match collectionKeys with
    | some ks => if ks.isEmpty then base else base ++ [("collections", Val.list (ks.map Val.str))]
    | Option.none => base
  (normalizeItemForType withColl item_type).filter (fun kv => !isNoneV kv.2)

/-! ## Identity keys (modelled from the spec) -/

/-- Modelled from the spec: `normalize_doi` of `src/utils/dedup.py` (the
module is imported by the adapter but missing from the source tree).
Trims whitespace, lowercases, and strips the `https://doi.org/`,
`http://doi.org/` and `doi:` prefixes (spec section 4.1). -/
def normalizeDoi (raw : String) : String :=
  let stripStart := fun (s p : String) =>
    if strStartsWith s p then strDrop s p.length else s
  let s := strToLower (strTrim raw)
  stripStart (stripStart (stripStart s "https://doi.org/") "http://doi.org/") "doi:"

/-- Modelled from the spec: `normalize_title` of `src/utils/dedup.py`
(missing from the source tree).  Lowercases, collapses internal
whitespace, strips outer whitespace (spec section 4.1). -/
def normalizeTitle (raw : String) : String :=
  " ".intercalate ((wordsAux (strToLower raw).data []).map List.asString)

/-- Modelled from the spec: `normalize_date` of `src/utils/dedup.py`
(missing from the source tree).  Canonical form preserves exactly what was
given (full ISO date or bare year); comparison is character-identical
(spec section 4.1). -/
def normalizeDate (raw : String) : String :=
  strTrim raw

/-- Modelled from the spec: `normalize_url` of `src/utils/dedup.py`
(missing from the source tree).  Drops the fragment and query string,
lowercases scheme and host, removes a trailing slash (spec section
4.1). -/
def normalizeUrl (raw : String) : String :=
  let lowerSchemeHost := fun (s : String) =>
    match breakOnSeq "://".data s.data with
    | Option.none => s
    | some (scheme, after) =>
      let host := after.takeWhile (fun c => c != '/')
      let path := after.drop host.length
      strToLower scheme.asString ++ "://" ++ strToLower host.asString ++ path.asString
  let cs := (strTrim raw).data
  let cs := cs.takeWhile (fun c => c != '#')
  let cs := cs.takeWhile (fun c => c != '?')
  let s := lowerSchemeHost cs.asString
  if strEndsWith s "/" then strDropRight s 1 else s

/-- Modelled from the spec: `paper_export_identity_keys` of
`src/utils/dedup.py` (missing from the source tree).  Ordered tiers: doi,
then title+date, then url; every derivable tier is emitted (spec section
4.2). -/
def paperExportIdentityKeys (p : Paper) : List IdentityKey :=
  let doiKeys :=
    match p.doi with
    | some d => let nd := normalizeDoi d; if nd ≠ "" then [("doi", nd)] else []
    | Option.none => []
  let tdKeys :=
    match p.published_date with
    | some dt =>
      if p.title ≠ "" then [("title_date", normalizeTitle p.title ++ "|" ++ normalizeDate dt)]
      else []
    | Option.none => []
  let urlKeys :=
    match p.url with
    | some u => let nu := normalizeUrl u; if nu ≠ "" then [("url", nu)] else []
    | Option.none => []
  doiKeys ++ tdKeys ++ urlKeys

/-- Modelled from the spec: `zotero_data_identity_keys` of
`src/utils/dedup.py` (missing from the source tree).  Reads the same
logical fields through a uniform accessor, from the nested `data` mapping
when present, else from the item itself; same tiers and normalizers as for
local records (spec section 4.2). -/
def zoteroDataIdentityKeys (item : PyDict) : List IdentityKey :=
  let d := match pyGet item "data" with | Val.dict m => m | _ => item
  let doiKeys :=
    match pyOr (pyGet d "DOI") (pyGet d "doi") with
    | Val.str s => let nd := normalizeDoi s; if nd ≠ "" then [("doi", nd)] else []
    | _ => []
  let tdKeys :=
    match pyGet d "title", pyGet d "date" with
    | Val.str t, Val.str dt =>
      if t ≠ "" ∧ dt ≠ "" then
        [("title_date", normalizeTitle t ++ "|" ++ normalizeDate dt)]
      else []
    | _, _ => []
  let urlKeys :=
    match pyGet d "url" with
    | Val.str u => let nu := normalizeUrl u; if nu ≠ "" then [("url", nu)] else []
    | _ => []
  doiKeys ++ tdKeys ++ urlKeys

/-! ## The export loop -/

/-- The fallible operations invoked inside the per-record try block of
`ZoteroAdapter.export`: identity-key derivation, schema conversion, the
remote create call, and payload-key derivation.  An `error` is a raised
Python exception carrying its message. -/
structure ExportEnv where
  deriveKeys : Paper → Except String (List IdentityKey)
  toZotero : Paper → Except String ZItem
  createItem : ZItem → Except String Val
  dataKeys : ZItem → Except String (List IdentityKey)

/-- The mutable state of one `ZoteroAdapter.export` run.  `existing` is
the Existing-Identity Index (a set, embedded as a membership list);
`createCalls` is a ghost count of remote create invocations. -/
structure ExportState where
  success : Nat
  skipped : Nat
  byKey : List (String × Nat)
  failures : List (String × String)
  existing : List IdentityKey
  createCalls : Nat

/-- `skipped_by_key[k] = skipped_by_key.get(k, 0) + n`: update in place,
or insert at the end as a Python dict would. -/
def bump : List (String × Nat) → String → Nat → List (String × Nat)
  | [], k, n => [(k, n)]
  | (k', v) :: rest, k, n =>
    if k' = k then (k', v + n) :: rest else (k', v) :: bump rest k n

/-- Append a failure entry (record title, error message). -/
def recordFailure (st : ExportState) (title msg : String) : ExportState :=
  { st with failures := st.failures ++ [(title, msg)] }

/-- The skip branch of the export loop: bump the overall and the per-kind
counters for the first matching key. -/
def skipUpdate (st : ExportState) (mk : IdentityKey) : ExportState :=
  { st with skipped := st.skipped + 1, byKey := bump st.byKey mk.1 1 }

/-- `success_count += created_n; skipped_count += skipped_n`. -/
def applyCounts (st : ExportState) (c s : Nat) : ExportState :=
  { st with success := st.success + c, skipped := st.skipped + s }

/-- `if skipped_n > 0 and identity_keys:` attribute the remote-side skip
count to the kind of the first derived key. -/
def applySkipAttribution (st : ExportState) (keys : List IdentityKey) (s : Nat) :
    ExportState :=
  match keys with
  | [] => st
  | k0 :: _ => if 0 < s then { st with byKey := bump st.byKey k0.1 s } else st

/-- `if failed_n > 0:` append a failure entry with the summarized create
failure message. -/
def applyFailures (st : ExportState) (p : Paper) (res : Val) (f : Nat) : ExportState :=
  if 0 < f then recordFailure st p.title (summarizeCreateFailures res f) else st

/-- `if created_n > 0:` grow the index with the keys derived from the
outgoing payload (a raised derivation there is caught with the counters
already updated, as in the source), then record create failures. -/
def applyIndexGrowth (env : ExportEnv) (p : Paper) (zitem : ZItem) (res : Val)
    (c f : Nat) (st : ExportState) : ExportState :=
  if 0 < c then
    match env.dataKeys zitem with
    | Except.error e => recordFailure st p.title e
    | Except.ok dk => applyFailures { st with existing := st.existing ++ dk } p res f
  else applyFailures st p res f

/-- The tail of the create branch of the export loop: apply the extracted
counts, attribute remote-side skips, grow the index, record failures. -/
def applyCreateResult (env : ExportEnv) (p : Paper) (keys : List IdentityKey)
    (zitem : ZItem) (res : Val) (st : ExportState) : ExportState :=
  applyIndexGrowth env p zitem res (extractCreateResultCounts res).1
    (extractCreateResultCounts res).2.2
    (applySkipAttribution
      (applyCounts st (extractCreateResultCounts res).1 (extractCreateResultCounts res).2.1)
      keys (extractCreateResultCounts res).2.1)

/-- One iteration of the loop of `ZoteroAdapter.export`: derive keys,
check them in order against the index, on first hit skip; otherwise
convert, create, and interpret the result.  Any raised exception is caught
and recorded as a failure entry for this record. -/
def processPaper (env : ExportEnv) (st : ExportState) (p : Paper) : ExportState :=
  match env.deriveKeys p with
  | Except.error e => recordFailure st p.title e
  | Except.ok keys =>
    match keys.find? (fun k => decide (k ∈ st.existing)) with
    | some mk => skipUpdate st mk
    | Option.none =>
      match env.toZotero p with
      | Except.error e => recordFailure st p.title e
      | Except.ok zitem =>
        match env.createItem zitem with
        | Except.error e =>
          recordFailure { st with createCalls := st.createCalls + 1 } p.title e
        | Except.ok res =>
          applyCreateResult env p keys zitem res { st with createCalls := st.createCalls + 1 }

/-- The state at the start of an export run: zero counters, the three
pre-seeded per-kind entries, and the preloaded index — empty when the
preload raised (the caught warning path of `ZoteroAdapter.export`). -/
def initState (preload : Except String (List IdentityKey)) : ExportState :=
  { success := 0, skipped := 0,
    byKey := [("doi", 0), ("title_date", 0), ("url", 0)],
    failures := [],
    existing := match preload with | Except.ok ks => ks | Except.error _ => [],
    createCalls := 0 }

/-- The final state of an export run: the sequential fold of the loop over
the input papers. -/
def exportState (env : ExportEnv) (preload : Except String (List IdentityKey))
    (papers : List Paper) : ExportState :=
  papers.foldl (processPaper env) (initState preload)

/-- The result mapping returned by `ZoteroAdapter.export`. -/
structure ExportResult where
  success_count : Nat
  total : Nat
  skipped_count : Nat
  skipped_by_key : List (String × Nat)
  failures : List (String × String)

/-- `ZoteroAdapter.export`: run the loop and package the result mapping. -/
def exportRun (env : ExportEnv) (preload : Except String (List IdentityKey))
    (papers : List Paper) : ExportResult :=
  let st := exportState env preload papers
  { success_count := st.success, total := papers.length,
    skipped_count := st.skipped, skipped_by_key := st.byKey,
    failures := st.failures }

/-! ## Concrete fixtures

Concrete environments and papers mirroring the scenarios of the
unit tests of the repository, used by the closed instantiations below. -/

/-- A create result reporting one created item and nothing else (the
shape used throughout `tests/unit/test_adapters.py`). -/
def resCreatedOne : Val :=
  Val.dict
    [("created", Val.list [Val.dict []]),
     ("skipped_duplicates", Val.list []),
     ("failed", Val.list [])]

/-- A create result reporting one remote-side skipped duplicate. -/
def resSkippedOne : Val :=
  Val.dict [("skipped_duplicates", Val.int 1)]

/-- The unrecognized create-result shape of the tests:
a mapping with no recognized count field. -/
def resOkTrue : Val :=
  Val.dict [("ok", Val.bool true)]

/-- The `successful`-map create-result shape of
`test_zotero_export_counts_successful_map_shape`. -/
def resSuccessfulMap : Val :=
  Val.dict
    [("successful", Val.dict [("0", Val.dict [("key", Val.str "ABCD1234")])]),
     ("created", Val.int 0),
     ("failed", Val.dict []),
     ("skipped_duplicates", Val.int 0)]

/-- The default environment: the spec-modelled derivations, the source
schema conversion with a fixed access date, and a given create stub. -/
def mkEnv (create : ZItem → Except String Val) : ExportEnv :=
  { deriveKeys := fun p => Except.ok (paperExportIdentityKeys p),
    toZotero := fun p => Except.ok (paperToZoteroItem "2024-01-01" p Option.none),
    createItem := create,
    dataKeys := fun z => Except.ok (zoteroDataIdentityKeys z) }

/-- Environment whose create call always reports one created item. -/
def envDup : ExportEnv := mkEnv (fun _ => Except.ok resCreatedOne)

/-- Paper with a DOI only. -/
def paperDup : Paper := { title := "A", doi := some "10.1/x" }

/-- Environment whose create call returns the unrecognized shape. -/
def envOkTrue : ExportEnv := mkEnv (fun _ => Except.ok resOkTrue)

/-- The paper of `test_zotero_export_does_not_infer_success_for_unknown_result_shape`. -/
def paperOkTrue : Paper :=
  { title := "Unknown Result Shape Paper", doi := some "10.8888/unknown-shape" }

/-- The paper of `test_zotero_export_continues_when_preload_fails`. -/
def paperPreload : Paper :=
  { title := "Paper After Preload Failure", doi := some "10.5555/preload" }

/-- Environment whose create call reports one remote-side skip. -/
def envSkipRes : ExportEnv := mkEnv (fun _ => Except.ok resSkippedOne)

/-- A paper with a title only: it derives no identity keys. -/
def paperNoKeys : Paper := { title := "Only Title" }

/-- A minimal abstract environment used by closed instantiations: fixed
derived keys, an empty payload, a create result of one created item, and
fixed payload keys. -/
def envFixed : ExportEnv :=
  { deriveKeys := fun _ => Except.ok [("doi", "d")],
    toZotero := fun _ => Except.ok [],
    createItem := fun _ => Except.ok (Val.dict [("created", Val.int 1)]),
    dataKeys := fun _ => Except.ok [("doi", "d2")] }

/-- An environment whose key derivation raises. -/
def envDeriveRaises : ExportEnv :=
  { deriveKeys := fun _ => Except.error "boom",
    toZotero := fun _ => Except.ok [],
    createItem := fun _ => Except.ok Val.none,
    dataKeys := fun _ => Except.ok [] }

/-- The empty-preload initial state. -/
def st0 : ExportState := initState (Except.ok [])

/-- An initial state whose index already holds the DOI key of
`paperDup`. -/
def stPre : ExportState := initState (Except.ok [("doi", "10.1/x")])

/-! ## Helper lemmas -/

theorem recordFailure_success (st : ExportState) (t m : String) :
    (recordFailure st t m).success = st.success := rfl

theorem recordFailure_skipped (st : ExportState) (t m : String) :
    (recordFailure st t m).skipped = st.skipped := rfl

theorem recordFailure_byKey (st : ExportState) (t m : String) :
    (recordFailure st t m).byKey = st.byKey := rfl

theorem recordFailure_existing (st : ExportState) (t m : String) :
    (recordFailure st t m).existing = st.existing := rfl

theorem applyCounts_skipped (st : ExportState) (c s : Nat) :
    (applyCounts st c s).skipped = st.skipped + s := rfl

theorem applyCounts_byKey (st : ExportState) (c s : Nat) :
    (applyCounts st c s).byKey = st.byKey := rfl

theorem applyCounts_existing (st : ExportState) (c s : Nat) :
    (applyCounts st c s).existing = st.existing := rfl

theorem applySkipAttribution_skipped (st : ExportState) (keys : List IdentityKey) (s : Nat) :
    (applySkipAttribution st keys s).skipped = st.skipped := by
  unfold applySkipAttribution
  split
  · rfl
  · split <;> rfl

theorem applySkipAttribution_existing (st : ExportState) (keys : List IdentityKey) (s : Nat) :
    (applySkipAttribution st keys s).existing = st.existing := by
  unfold applySkipAttribution
  split
  · rfl
  · split <;> rfl

theorem applyFailures_skipped (st : ExportState) (p : Paper) (res : Val) (f : Nat) :
    (applyFailures st p res f).skipped = st.skipped := by
  unfold applyFailures
  split <;> rfl

theorem applyFailures_byKey (st : ExportState) (p : Paper) (res : Val) (f : Nat) :
    (applyFailures st p res f).byKey = st.byKey := by
  unfold applyFailures
  split <;> rfl

theorem applyFailures_existing (st : ExportState) (p : Paper) (res : Val) (f : Nat) :
    (applyFailures st p res f).existing = st.existing := by
  unfold applyFailures
  split <;> rfl

theorem update_existing_skipped (st : ExportState) (e : List IdentityKey) :
    ({ st with existing := e } : ExportState).skipped = st.skipped := rfl

theorem update_existing_byKey (st : ExportState) (e : List IdentityKey) :
    ({ st with existing := e } : ExportState).byKey = st.byKey := rfl

theorem update_existing_existing (st : ExportState) (e : List IdentityKey) :
    ({ st with existing := e } : ExportState).existing = e := rfl

theorem applyIndexGrowth_skipped (env : ExportEnv) (p : Paper) (zitem : ZItem)
    (res : Val) (c f : Nat) (st : ExportState) :
    (applyIndexGrowth env p zitem res c f st).skipped = st.skipped := by
  unfold applyIndexGrowth
  split
  · split
    · rw [recordFailure_skipped]
    · rw [applyFailures_skipped, update_existing_skipped]
  · rw [applyFailures_skipped]

theorem applyIndexGrowth_byKey (env : ExportEnv) (p : Paper) (zitem : ZItem)
    (res : Val) (c f : Nat) (st : ExportState) :
    (applyIndexGrowth env p zitem res c f st).byKey = st.byKey := by
  unfold applyIndexGrowth
  split
  · split
    · rw [recordFailure_byKey]
    · rw [applyFailures_byKey, update_existing_byKey]
  · rw [applyFailures_byKey]

theorem applyIndexGrowth_existing_super (env : ExportEnv) (p : Paper) (zitem : ZItem)
    (res : Val) (c f : Nat) (st : ExportState) :
    st.existing ⊆ (applyIndexGrowth env p zitem res c f st).existing := by
  unfold applyIndexGrowth
  split
  · split
    · rw [recordFailure_existing]
      exact List.Subset.refl _
    · rw [applyFailures_existing, update_existing_existing]
      exact List.subset_append_left _ _
  · rw [applyFailures_existing]
    exact List.Subset.refl _

theorem applyCreateResult_skipped (env : ExportEnv) (p : Paper) (keys : List IdentityKey)
    (zitem : ZItem) (res : Val) (st : ExportState) :
    (applyCreateResult env p keys zitem res st).skipped
      = st.skipped + (extractCreateResultCounts res).2.1 := by
  unfold applyCreateResult
  rw [applyIndexGrowth_skipped, applySkipAttribution_skipped, applyCounts_skipped]

theorem applyCreateResult_existing_super (env : ExportEnv) (p : Paper)
    (keys : List IdentityKey) (zitem : ZItem) (res : Val) (st : ExportState) :
    st.existing ⊆ (applyCreateResult env p keys zitem res st).existing := by
  unfold applyCreateResult
  have h := applyIndexGrowth_existing_super env p zitem res
    (extractCreateResultCounts res).1 (extractCreateResultCounts res).2.2
    (applySkipAttribution
      (applyCounts st (extractCreateResultCounts res).1 (extractCreateResultCounts res).2.1)
      keys (extractCreateResultCounts res).2.1)
  rw [applySkipAttribution_existing, applyCounts_existing] at h
  exact h

theorem processPaper_skip_eq (env : ExportEnv) (st : ExportState) (p : Paper)
    (keys : List IdentityKey) (mk : IdentityKey)
    (hd : env.deriveKeys p = Except.ok keys)
    (hf : keys.find? (fun k => decide (k ∈ st.existing)) = some mk) :
    processPaper env st p = skipUpdate st mk := by
  unfold processPaper
  split
  · next e heq => rw [hd] at heq; cases heq
  · next keys' heq =>
    rw [hd] at heq
    injection heq with h'
    subst h'
    split
    · next mk' hf' =>
      rw [hf] at hf'
      injection hf' with h2
      subst h2
      rfl
    · next hf' => rw [hf] at hf'; cases hf'

theorem processPaper_create_eq (env : ExportEnv) (st : ExportState) (p : Paper)
    (keys : List IdentityKey) (zitem : ZItem) (res : Val)
    (hd : env.deriveKeys p = Except.ok keys)
    (hf : keys.find? (fun k => decide (k ∈ st.existing)) = Option.none)
    (ht : env.toZotero p = Except.ok zitem)
    (hc : env.createItem zitem = Except.ok res) :
    processPaper env st p
      = applyCreateResult env p keys zitem res { st with createCalls := st.createCalls + 1 } := by
  unfold processPaper
  split
  · next e heq => rw [hd] at heq; cases heq
  · next keys' heq =>
    rw [hd] at heq
    injection heq with h'
    subst h'
    split
    · next mk' hf' => rw [hf] at hf'; cases hf'
    · next =>
      split
      · next e heq2 => rw [ht] at heq2; cases heq2
      · next zitem' heq2 =>
        rw [ht] at heq2
        injection heq2 with h2
        subst h2
        split
        · next e heq3 => rw [hc] at heq3; cases heq3
        · next res' heq3 =>
          rw [hc] at heq3
          injection heq3 with h3
          subst h3
          rfl

theorem update_createCalls_skipped (st : ExportState) (n : Nat) :
    ({ st with createCalls := n } : ExportState).skipped = st.skipped := rfl

theorem update_createCalls_byKey (st : ExportState) (n : Nat) :
    ({ st with createCalls := n } : ExportState).byKey = st.byKey := rfl

theorem update_createCalls_existing (st : ExportState) (n : Nat) :
    ({ st with createCalls := n } : ExportState).existing = st.existing := rfl

theorem processPaper_derive_error_eq (env : ExportEnv) (st : ExportState) (p : Paper)
    (e : String) (hd : env.deriveKeys p = Except.error e) :
    processPaper env st p = recordFailure st p.title e := by
  unfold processPaper
  split
  · next e' heq =>
    rw [hd] at heq
    injection heq with h'
    subst h'
    rfl
  · next keys' heq => rw [hd] at heq; cases heq

theorem processPaper_toZotero_error_eq (env : ExportEnv) (st : ExportState) (p : Paper)
    (keys : List IdentityKey) (e : String)
    (hd : env.deriveKeys p = Except.ok keys)
    (hf : keys.find? (fun k => decide (k ∈ st.existing)) = Option.none)
    (ht : env.toZotero p = Except.error e) :
    processPaper env st p = recordFailure st p.title e := by
  unfold processPaper
  split
  · next e' heq => rw [hd] at heq; cases heq
  · next keys' heq =>
    rw [hd] at heq
    injection heq with h'
    subst h'
    split
    · next mk' hf' => rw [hf] at hf'; cases hf'
    · next =>
      split
      · next e' heq2 =>
        rw [ht] at heq2
        injection heq2 with h2
        subst h2
        rfl
      · next zitem' heq2 => rw [ht] at heq2; cases heq2

theorem processPaper_create_error_eq (env : ExportEnv) (st : ExportState) (p : Paper)
    (keys : List IdentityKey) (zitem : ZItem) (e : String)
    (hd : env.deriveKeys p = Except.ok keys)
    (hf : keys.find? (fun k => decide (k ∈ st.existing)) = Option.none)
    (ht : env.toZotero p = Except.ok zitem)
    (hc : env.createItem zitem = Except.error e) :
    processPaper env st p
      = recordFailure { st with createCalls := st.createCalls + 1 } p.title e := by
  unfold processPaper
  split
  · next e' heq => rw [hd] at heq; cases heq
  · next keys' heq =>
    rw [hd] at heq
    injection heq with h'
    subst h'
    split
    · next mk' hf' => rw [hf] at hf'; cases hf'
    · next =>
      split
      · next e' heq2 => rw [ht] at heq2; cases heq2
      · next zitem' heq2 =>
        rw [ht] at heq2
        injection heq2 with h2
        subst h2
        split
        · next e' heq3 =>
          rw [hc] at heq3
          injection heq3 with h3
          subst h3
          rfl
        · next res' heq3 => rw [hc] at heq3; cases heq3

theorem applyIndexGrowth_error_eq (env : ExportEnv) (p : Paper) (zitem : ZItem)
    (res : Val) (c f : Nat) (st : ExportState) (e : String)
    (h : 0 < c) (hdk : env.dataKeys zitem = Except.error e) :
    applyIndexGrowth env p zitem res c f st = recordFailure st p.title e := by
  unfold applyIndexGrowth
  rw [if_pos h]
  split
  · next e' heq =>
    rw [hdk] at heq
    injection heq with h'
    subst h'
    rfl
  · next dk heq => rw [hdk] at heq; cases heq

theorem applyIndexGrowth_ok_eq (env : ExportEnv) (p : Paper) (zitem : ZItem)
    (res : Val) (c f : Nat) (st : ExportState) (dk : List IdentityKey)
    (h : 0 < c) (hdk : env.dataKeys zitem = Except.ok dk) :
    applyIndexGrowth env p zitem res c f st
      = applyFailures { st with existing := st.existing ++ dk } p res f := by
  unfold applyIndexGrowth
  rw [if_pos h]
  split
  · next e' heq => rw [hdk] at heq; cases heq
  · next dk' heq =>
    rw [hdk] at heq
    injection heq with h'
    subst h'
    rfl

theorem processPaper_existing_super (env : ExportEnv) (st : ExportState) (p : Paper) :
    st.existing ⊆ (processPaper env st p).existing := by
  unfold processPaper
  split
  · rw [recordFailure_existing]
    exact List.Subset.refl _
  · split
    · exact List.Subset.refl _
    · split
      · rw [recordFailure_existing]
        exact List.Subset.refl _
      · split
        · rw [recordFailure_existing]
          exact List.Subset.refl _
        · exact applyCreateResult_existing_super env p _ _ _
            { st with createCalls := st.createCalls + 1 }

/-! ## Claims -/

/-- Claim C1: for every input record during an export run, the derived
identity keys are checked against the current Existing-Identity Index in
the order of the derived-key list; when some key is present (the first
such hit being `mk`), the overall skip counter and the per-kind counter
for the kind of `mk` are each incremented by one, every other state
component — including the ghost count of create calls — is unchanged,
and the loop moves on to the next record (the fold continues from this
state). -/
theorem c1_first_index_hit_skips_without_create
    (env : ExportEnv) (st : ExportState) (p : Paper)
    (keys : List IdentityKey) (mk : IdentityKey)
    (hd : env.deriveKeys p = Except.ok keys)
    (hf : keys.find? (fun k => decide (k ∈ st.existing)) = some mk) :
    processPaper env st p
      = { st with skipped := st.skipped + 1, byKey := bump st.byKey mk.1 1 }
    ∧ (processPaper env st p).createCalls = st.createCalls := by
  have h := processPaper_skip_eq env st p keys mk hd hf
  constructor
  · rw [h]; rfl
  · rw [h]; rfl

/-- Witness for C1: a paper whose DOI key is already in the index is
skipped with the doi kind bumped and no create call. -/
theorem c1_first_index_hit_skips_without_create_witness :
    processPaper envDup stPre paperDup
      = { stPre with skipped := stPre.skipped + 1, byKey := bump stPre.byKey "doi" 1 }
    ∧ (processPaper envDup stPre paperDup).createCalls = stPre.createCalls :=
  c1_first_index_hit_skips_without_create envDup stPre paperDup
    [("doi", "10.1/x")] ("doi", "10.1/x") rfl (by decide)

/-- Claim C2: the Existing-Identity Index grows monotonically during one
export run (every processed record only ever extends it); whenever a
create call reports a positive created count, the identity keys derived
from the outgoing payload are all in the index held by the state passed
to the next record; consequently, for two identical new records in the
same input sequence, the first is created and the second is skipped
(exactly one create call happens). -/
theorem c2_index_monotone_and_within_run_dedup :
    (∀ (env : ExportEnv) (st : ExportState) (p : Paper),
        st.existing ⊆ (processPaper env st p).existing)
  ∧ (∀ (env : ExportEnv) (st : ExportState) (p : Paper)
        (keys : List IdentityKey) (zitem : ZItem) (res : Val) (dk : List IdentityKey),
        env.deriveKeys p = Except.ok keys →
        keys.find? (fun k => decide (k ∈ st.existing)) = Option.none →
        env.toZotero p = Except.ok zitem →
        env.createItem zitem = Except.ok res →
        0 < (extractCreateResultCounts res).1 →
        env.dataKeys zitem = Except.ok dk →
        ∀ k ∈ dk, k ∈ (processPaper env st p).existing)
  ∧ ((exportState envDup (Except.ok []) [paperDup, paperDup]).success = 1
      ∧ (exportState envDup (Except.ok []) [paperDup, paperDup]).skipped = 1
      ∧ (exportState envDup (Except.ok []) [paperDup, paperDup]).createCalls = 1
      ∧ List.lookup "doi" (exportState envDup (Except.ok []) [paperDup, paperDup]).byKey
          = some 1) := by
  refine ⟨processPaper_existing_super, ?_, by decide, by decide, by decide, by decide⟩
  intro env st p keys zitem res dk hd hf ht hc hpos hdk k hk
  rw [processPaper_create_eq env st p keys zitem res hd hf ht hc]
  unfold applyCreateResult
  rw [applyIndexGrowth_ok_eq env p zitem res _ _ _ dk hpos hdk,
    applyFailures_existing, update_existing_existing]
  exact List.mem_append_right _ hk

/-- Witness for C2: instantiating the payload-keys-added conjunct at a
concrete environment shows the new key in the index after the record. -/
theorem c2_index_monotone_and_within_run_dedup_witness :
    ("doi", "d2") ∈ (processPaper envFixed st0 paperDup).existing :=
  c2_index_monotone_and_within_run_dedup.2.1 envFixed st0 paperDup
    [("doi", "d")] [] (Val.dict [("created", Val.int 1)]) [("doi", "d2")]
    rfl rfl rfl rfl (by decide) rfl ("doi", "d2") (by decide)

/-- Claim C3: a create-call result that is not a mapping yields created,
skipped and failed counts of exactly (0, 0, 0); in particular the mapping
result with the single unrecognized field ok=true also yields (0, 0, 0),
and an export invocation receiving it reports no success and records no
failure entry. -/
theorem c3_unrecognized_result_counts_zero :
    (∀ v : Val, isDict v = false → extractCreateResultCounts v = (0, 0, 0))
  ∧ extractCreateResultCounts resOkTrue = (0, 0, 0)
  ∧ ((exportRun envOkTrue (Except.ok []) [paperOkTrue]).success_count = 0
      ∧ (exportRun envOkTrue (Except.ok []) [paperOkTrue]).skipped_count = 0
      ∧ (exportRun envOkTrue (Except.ok []) [paperOkTrue]).failures = []) := by
  refine ⟨?_, by decide, by decide, by decide, by decide⟩
  intro v h
  cases v <;> first
    | rfl
    | (simp [isDict] at h)

/-- Witness for C3: a bare integer result (not a mapping) contributes
nothing. -/
theorem c3_unrecognized_result_counts_zero_witness :
    extractCreateResultCounts (Val.int 5) = (0, 0, 0) :=
  c3_unrecognized_result_counts_zero.1 (Val.int 5) rfl

/-- Claim C4 (the code contradicts it): the Create-Result Interpreter
never reads a `successful` map field — the result shape of
`test_zotero_export_counts_successful_map_shape` (a one-entry
`successful` map with created=0, failed empty, skipped_duplicates=0)
extracts to (0, 0, 0), not to a created count of 1 as the claim and the
test of the repository itself assert. -/
theorem c4_successful_map_yields_zero_counts :
    extractCreateResultCounts resSuccessfulMap = (0, 0, 0) := by decide

/-- Claim C5: any exception raised at each fallible point of one
processing of one record (identity-key derivation, schema conversion, the
create call, payload-key derivation) is caught and appended as a failure
entry carrying the title of the record and the message of the exception, with the
state mutations made before the raise preserved; the fold then continues
with the next record, and the export invocation always returns a result
mapping whose total is the full input length. -/
theorem c5_per_record_exceptions_recorded_and_run_completes :
    (∀ (env : ExportEnv) (st : ExportState) (p : Paper) (e : String),
        env.deriveKeys p = Except.error e →
        processPaper env st p = recordFailure st p.title e)
  ∧ (∀ (env : ExportEnv) (st : ExportState) (p : Paper)
        (keys : List IdentityKey) (e : String),
        env.deriveKeys p = Except.ok keys →
        keys.find? (fun k => decide (k ∈ st.existing)) = Option.none →
        env.toZotero p = Except.error e →
        processPaper env st p = recordFailure st p.title e)
  ∧ (∀ (env : ExportEnv) (st : ExportState) (p : Paper)
        (keys : List IdentityKey) (zitem : ZItem) (e : String),
        env.deriveKeys p = Except.ok keys →
        keys.find? (fun k => decide (k ∈ st.existing)) = Option.none →
        env.toZotero p = Except.ok zitem →
        env.createItem zitem = Except.error e →
        processPaper env st p
          = recordFailure { st with createCalls := st.createCalls + 1 } p.title e)
  ∧ (∀ (env : ExportEnv) (st : ExportState) (p : Paper)
        (keys : List IdentityKey) (zitem : ZItem) (res : Val) (e : String),
        env.deriveKeys p = Except.ok keys →
        keys.find? (fun k => decide (k ∈ st.existing)) = Option.none →
        env.toZotero p = Except.ok zitem →
        env.createItem zitem = Except.ok res →
        0 < (extractCreateResultCounts res).1 →
        env.dataKeys zitem = Except.error e →
        processPaper env st p
          = recordFailure
              (applySkipAttribution
                (applyCounts { st with createCalls := st.createCalls + 1 }
                  (extractCreateResultCounts res).1 (extractCreateResultCounts res).2.1)
                keys (extractCreateResultCounts res).2.1)
              p.title e)
  ∧ (∀ (env : ExportEnv) (pre : Except String (List IdentityKey))
        (p : Paper) (ps : List Paper),
        exportState env pre (p :: ps)
          = ps.foldl (processPaper env) (processPaper env (initState pre) p))
  ∧ (∀ (env : ExportEnv) (pre : Except String (List IdentityKey))
        (papers : List Paper),
        (exportRun env pre papers).total = papers.length) := by
  refine ⟨processPaper_derive_error_eq, processPaper_toZotero_error_eq,
    processPaper_create_error_eq, ?_, fun env pre p ps => rfl, fun env pre papers => rfl⟩
  intro env st p keys zitem res e hd hf ht hc hpos hdk
  rw [processPaper_create_eq env st p keys zitem res hd hf ht hc]
  unfold applyCreateResult
  rw [applyIndexGrowth_error_eq env p zitem res _ _ _ e hpos hdk]

/-- Witness for C5: a derivation that raises is recorded as a failure
entry with the title and the message. -/
theorem c5_per_record_exceptions_recorded_and_run_completes_witness :
    processPaper envDeriveRaises st0 paperNoKeys
      = recordFailure st0 paperNoKeys.title "boom" :=
  c5_per_record_exceptions_recorded_and_run_completes.1
    envDeriveRaises st0 paperNoKeys "boom" rfl

/-- Claim C6: when no (target, method-name) candidate pair yields an item
list, the index loader raises the no-compatible-listing-method error; the
export treats any preload failure exactly as an empty Existing-Identity
Index (same run outcome), and with a failed preload a new record is still
created with no failure recorded (no exception escapes). -/
theorem c6_no_listing_method_error_and_empty_index_degradation :
    (∀ cands : List CandidateOutcome,
        (∀ c ∈ cands, ∀ items : List Val, c ≠ CandidateOutcome.attempt (some items)) →
        listExistingItems cands = Except.error noCompatibleListMsg)
  ∧ (∀ (env : ExportEnv) (e : String) (papers : List Paper),
        exportRun env (Except.error e) papers = exportRun env (Except.ok []) papers)
  ∧ ((exportRun envDup (Except.error "preload failed") [paperPreload]).success_count = 1
      ∧ (exportRun envDup (Except.error "preload failed") [paperPreload]).skipped_count = 0
      ∧ (exportRun envDup (Except.error "preload failed") [paperPreload]).failures = []) := by
  refine ⟨?_, fun env e papers => rfl, by decide, by decide, by decide⟩
  intro cands h
  induction cands with
  | nil => rfl
  | cons c rest ih =>
    have hrest : listExistingItems rest = Except.error noCompatibleListMsg :=
      ih (fun c' hmem items => h c' (List.mem_cons_of_mem _ hmem) items)
    cases c with
    | notCallable => exact hrest
    | raised m => exact hrest
    | attempt items? =>
      cases items? with
      | none => exact hrest
      | some items => exact absurd rfl (h _ (List.mem_cons_self _ _) items)

/-- Witness for C6: a candidate list of a missing method and a raising
method yields the no-compatible-method error. -/
theorem c6_no_listing_method_error_and_empty_index_degradation_witness :
    listExistingItems [CandidateOutcome.notCallable, CandidateOutcome.raised "sig"]
      = Except.error noCompatibleListMsg :=
  c6_no_listing_method_error_and_empty_index_degradation.1
    [CandidateOutcome.notCallable, CandidateOutcome.raised "sig"]
    (by intro c hmem items; cases hmem with
        | head => intro hne; cases hne
        | tail _ h2 =>
          cases h2 with
          | head => intro hne; cases hne
          | tail _ h3 => cases h3)

/-- Claim C7 as stated is false on the code: for a record that derives no
identity keys, a create call reporting one remote-side skipped duplicate
adds one to the overall skip counter but attributes nothing to any kind —
in particular no "unknown" entry appears in the per-kind breakdown. -/
theorem c7_no_unknown_attribution_counterexample :
    (exportState envSkipRes (Except.ok []) [paperNoKeys]).skipped = 1
  ∧ List.lookup "unknown" (exportState envSkipRes (Except.ok []) [paperNoKeys]).byKey
      = Option.none := by decide

theorem applySkipAttribution_byKey_nil (st : ExportState) (s : Nat) :
    (applySkipAttribution st [] s).byKey = st.byKey := rfl

theorem applySkipAttribution_byKey_cons (st : ExportState) (k0 : IdentityKey)
    (rest : List IdentityKey) (s : Nat) (hs : 0 < s) :
    (applySkipAttribution st (k0 :: rest) s).byKey = bump st.byKey k0.1 s := by
  unfold applySkipAttribution
  split
  · next heq => cases heq
  · next k0' tail heq =>
    injection heq with h1 h2
    subst h1
    rw [if_pos hs]

/-- Claim C7 amended: when a create call reports a nonzero remote-side
skipped count, that count is added to the overall skip counter; it is
attributed in the per-kind breakdown to the kind of the first
derived identity key of the record when the record derived at least one key, and to no
kind at all (the per-kind breakdown is unchanged) when the record derived
none. -/
theorem c7_amended_skip_attribution
    (env : ExportEnv) (st : ExportState) (p : Paper)
    (keys : List IdentityKey) (zitem : ZItem) (res : Val)
    (hd : env.deriveKeys p = Except.ok keys)
    (hf : keys.find? (fun k => decide (k ∈ st.existing)) = Option.none)
    (ht : env.toZotero p = Except.ok zitem)
    (hc : env.createItem zitem = Except.ok res)
    (hs : 0 < (extractCreateResultCounts res).2.1) :
    (processPaper env st p).skipped = st.skipped + (extractCreateResultCounts res).2.1
  ∧ (keys = [] → (processPaper env st p).byKey = st.byKey)
  ∧ (∀ (k0 : IdentityKey) (rest : List IdentityKey), keys = k0 :: rest →
      (processPaper env st p).byKey
        = bump st.byKey k0.1 (extractCreateResultCounts res).2.1) := by
  rw [processPaper_create_eq env st p keys zitem res hd hf ht hc]
  refine ⟨?_, ?_, ?_⟩
  · rw [applyCreateResult_skipped, update_createCalls_skipped]
  · intro hk
    subst hk
    unfold applyCreateResult
    rw [applyIndexGrowth_byKey, applySkipAttribution_byKey_nil,
      applyCounts_byKey, update_createCalls_byKey]
  · intro k0 rest hk
    subst hk
    unfold applyCreateResult
    rw [applyIndexGrowth_byKey, applySkipAttribution_byKey_cons _ _ _ _ hs,
      applyCounts_byKey, update_createCalls_byKey]

/-- Witness for C7 (amended): a keyless record with a remote-side skip of
one adds one to the skip counter and leaves the per-kind breakdown
unchanged. -/
theorem c7_amended_skip_attribution_witness :
    (processPaper envSkipRes st0 paperNoKeys).skipped
        = st0.skipped + (extractCreateResultCounts resSkippedOne).2.1
    ∧ (processPaper envSkipRes st0 paperNoKeys).byKey = st0.byKey := by
  have h := c7_amended_skip_attribution envSkipRes st0 paperNoKeys
    [] (paperToZoteroItem "2024-01-01" paperNoKeys Option.none) resSkippedOne
    rfl rfl rfl rfl (by decide)
  exact ⟨h.1, h.2.1 rfl⟩

/-- Claim C8 (the code contradicts it): with a collection identifier that
does not look like a store key and a remote client exposing no
collection-listing capability at all, `_resolve_collection_key` does not
raise — it returns the identifier unchanged, while the claim and the
repository test `test_zotero_export_collection_name_requires_resolution`
expect a raised ValueError. -/
theorem c8_no_lookup_capability_passthrough :
    resolveCollectionKey Option.none (some "00_INBOXS_AA") = some "00_INBOXS_AA" := by
  decide

theorem lookup_append_some (k : String) (v : Val) (l1 l2 : PyDict)
    (h : l1.lookup k = some v) : (l1 ++ l2).lookup k = some v := by
  induction l1 with
  | nil => simp [List.lookup] at h
  | cons hd tl ih =>
    obtain ⟨k', v'⟩ := hd
    rw [List.cons_append]
    simp only [List.lookup] at h ⊢
    cases hk : (k == k') with
    | true => rw [hk] at h; exact h
    | false => rw [hk] at h; exact ih h

theorem lookup_append_single_absent (k : String) (v : Val) (m : PyDict)
    (h : m.lookup k = Option.none) : (m ++ [(k, v)]).lookup k = some v := by
  induction m with
  | nil => simp [List.lookup]
  | cons hd tl ih =>
    obtain ⟨k', v'⟩ := hd
    rw [List.cons_append]
    simp only [List.lookup] at h ⊢
    cases hk : (k == k') with
    | true => rw [hk] at h; cases h
    | false => rw [hk] at h; exact ih h

theorem lookup_append_single_ne (k k' : String) (v : Val) (m : PyDict)
    (h : (k' == k) = false) : (m ++ [(k, v)]).lookup k' = m.lookup k' := by
  induction m with
  | nil => simp [List.lookup, h]
  | cons hd tl ih =>
    obtain ⟨k0, v0⟩ := hd
    rw [List.cons_append]
    simp only [List.lookup]
    cases hk : (k' == k0) with
    | true => rfl
    | false => exact ih

theorem lookup_addIfAbsent_of_some (m : PyDict) (kk : String) (vv : Val) (cond : Bool)
    (k : String) (v : Val) (h : m.lookup k = some v) :
    (addIfAbsent m kk vv cond).lookup k = some v := by
  unfold addIfAbsent
  split
  · exact lookup_append_some k v m [(kk, vv)] h
  · exact h

theorem lookup_addIfAbsent_insert (m : PyDict) (k : String) (v : Val) (cond : Bool)
    (hc : cond = true) (habs : m.lookup k = Option.none) :
    (addIfAbsent m k v cond).lookup k = some v := by
  unfold addIfAbsent
  rw [hc, habs]
  simp only [Option.isNone_none, Bool.and_true, if_true]
  exact lookup_append_single_absent k v m habs

theorem lookup_addIfAbsent_other (m : PyDict) (kk : String) (vv : Val) (cond : Bool)
    (k : String) (h : (k == kk) = false) :
    (addIfAbsent m kk vv cond).lookup k = m.lookup k := by
  unfold addIfAbsent
  split
  · exact lookup_append_single_ne kk k vv m h
  · rfl

theorem addIfAbsent_ne_nil_of (m : PyDict) (kk : String) (vv : Val) (cond : Bool)
    (h : m ≠ []) : addIfAbsent m kk vv cond ≠ [] := by
  unfold addIfAbsent
  split
  · cases m with
    | nil => simp
    | cons hd tl => simp
  · exact h

theorem addIfAbsent_ne_nil_insert (m : PyDict) (k : String) (v : Val) (cond : Bool)
    (hc : cond = true) (habs : m.lookup k = Option.none) :
    addIfAbsent m k v cond ≠ [] := by
  unfold addIfAbsent
  rw [hc, habs]
  simp only [Option.isNone_none, Bool.and_true, if_true]
  cases m with
  | nil => simp
  | cons hd tl => simp

theorem coerceWrap_lookup (item m : PyDict) (k : String) (v : Val)
    (hne : m ≠ []) (h : m.lookup k = some v) :
    List.lookup k (coercedData (if m.isEmpty then item else [("data", Val.dict m)]))
      = some v := by
  cases m with
  | nil => exact absurd rfl hne
  | cons hd tl =>
    simp only [List.isEmpty_cons, if_false, Bool.false_eq_true]
    unfold coercedData pyGet
    simp only [List.lookup]
    exact h

theorem pyStr_str (s : String) : pyStr (Val.str s) = s := rfl

/-- Claim C9: when coercing a flat remote item dict, field merging is
first-write-wins per field — any field present in a flat `raw_data`
mapping keeps its `raw_data` value in the coerced `data` mapping, whatever
same-named top-level fields say; and a top-level `year` becomes the
bare-year string `date` exactly when the item carries no truthy (non-empty)
explicit `date` value, a truthy `date` always winning. -/
theorem c9_first_write_wins_and_year_fallback :
    (∀ (item raw : PyDict) (k : String) (v : Val),
        isDict (pyGet item "data") = false →
        asDict (pyGet item "raw_data") = some raw →
        isDict (pyGet raw "data") = false →
        raw.lookup k = some v →
        List.lookup k (coercedData (coerceFlatItemDict item)) = some v)
  ∧ (∀ item : PyDict,
        isDict (pyGet item "data") = false →
        asDict (pyGet item "raw_data") = Option.none →
        truthy (pyGet item "date") = true →
        List.lookup "date" (coercedData (coerceFlatItemDict item))
          = some (Val.str (pyStr (pyGet item "date"))))
  ∧ (∀ item : PyDict,
        isDict (pyGet item "data") = false →
        asDict (pyGet item "raw_data") = Option.none →
        truthy (pyGet item "date") = false →
        isNoneV (pyGet item "year") = false →
        (strTrim (pyStr (pyGet item "year")) != "") = true →
        List.lookup "date" (coercedData (coerceFlatItemDict item))
          = some (Val.str (pyStr (pyGet item "year")))) := by
  refine ⟨?_, ?_, ?_⟩
  · intro item raw k v hdata hraw hrawdata hk
    have hcf : coerceFlatItemDict item = coerceMerge item raw := by
      unfold coerceFlatItemDict
      rw [hdata]
      rw [if_neg (by decide)]
      rw [hraw]
      simp only [coerceRaw]
      rw [hrawdata]
      rw [if_neg (by decide)]
    rw [hcf]
    simp only [coerceMerge]
    apply coerceWrap_lookup
    · apply addIfAbsent_ne_nil_of
      apply addIfAbsent_ne_nil_of
      apply addIfAbsent_ne_nil_of
      apply addIfAbsent_ne_nil_of
      apply addIfAbsent_ne_nil_of
      intro h0
      rw [h0] at hk
      cases hk
    · apply lookup_addIfAbsent_of_some
      apply lookup_addIfAbsent_of_some
      apply lookup_addIfAbsent_of_some
      apply lookup_addIfAbsent_of_some
      apply lookup_addIfAbsent_of_some
      exact hk
  · intro item hdata hraw hdate
    have hcf : coerceFlatItemDict item = coerceMerge item [] := by
      unfold coerceFlatItemDict
      rw [hdata]
      rw [if_neg (by decide)]
      rw [hraw]
      simp only [coerceRaw]
    rw [hcf]
    simp only [coerceMerge]
    rw [if_pos hdate]
    apply coerceWrap_lookup
    · apply addIfAbsent_ne_nil_of
      apply addIfAbsent_ne_nil_of
      apply addIfAbsent_ne_nil_insert
      · exact hdate
      · rw [lookup_addIfAbsent_other, lookup_addIfAbsent_other]
        · rfl
        · decide
        · decide
    · apply lookup_addIfAbsent_of_some
      apply lookup_addIfAbsent_of_some
      apply lookup_addIfAbsent_insert
      · exact hdate
      · rw [lookup_addIfAbsent_other, lookup_addIfAbsent_other]
        · rfl
        · decide
        · decide
  · intro item hdata hraw hdate hy htr
    have hcf : coerceFlatItemDict item = coerceMerge item [] := by
      unfold coerceFlatItemDict
      rw [hdata]
      rw [if_neg (by decide)]
      rw [hraw]
      simp only [coerceRaw]
    have hcond : (!isNoneV (pyGet item "year")
        && (strTrim (pyStr (pyGet item "year")) != "")) = true := by
      rw [hy, htr]
      rfl
    have hne : (pyStr (pyGet item "year") != "") = true := by
      cases hb : (pyStr (pyGet item "year") == "") with
      | false => simp [bne, hb]
      | true =>
        have h0 : pyStr (pyGet item "year") = "" := eq_of_beq hb
        rw [h0] at htr
        have h1 : (strTrim "" != "") = false := by decide
        rw [h1] at htr
        cases htr
    rw [hcf]
    simp only [coerceMerge]
    rw [if_neg (show ¬(truthy (pyGet item "date") = true) by
      rw [hdate]; exact Bool.false_ne_true)]
    rw [if_pos hcond]
    simp only [pyStr_str]
    apply coerceWrap_lookup
    · apply addIfAbsent_ne_nil_of
      apply addIfAbsent_ne_nil_of
      apply addIfAbsent_ne_nil_insert
      · show truthy (Val.str (pyStr (pyGet item "year"))) = true
        simp only [truthy]
        exact hne
      · rw [lookup_addIfAbsent_other, lookup_addIfAbsent_other]
        · rfl
        · decide
        · decide
    · apply lookup_addIfAbsent_of_some
      apply lookup_addIfAbsent_of_some
      apply lookup_addIfAbsent_insert
      · show truthy (Val.str (pyStr (pyGet item "year"))) = true
        simp only [truthy]
        exact hne
      · rw [lookup_addIfAbsent_other, lookup_addIfAbsent_other]
        · rfl
        · decide
        · decide

/-- Witness for C9: a raw_data title beats a top-level title, and a
top-level year becomes a bare-year date when no date is present. -/
theorem c9_first_write_wins_and_year_fallback_witness :
    List.lookup "title"
        (coercedData (coerceFlatItemDict
          [("raw_data", Val.dict [("title", Val.str "R")]), ("title", Val.str "T")]))
      = some (Val.str "R")
  ∧ List.lookup "date"
        (coercedData (coerceFlatItemDict [("year", Val.int 2025), ("title", Val.str "T")]))
      = some (Val.str "2025") := by
  constructor
  · exact c9_first_write_wins_and_year_fallback.1
      [("raw_data", Val.dict [("title", Val.str "R")]), ("title", Val.str "T")]
      [("title", Val.str "R")] "title" (Val.str "R") rfl rfl rfl rfl
  · exact c9_first_write_wins_and_year_fallback.2.2
      [("year", Val.int 2025), ("title", Val.str "T")] rfl rfl rfl rfl (by decide)

/-- Claim C10: a collection identifier whose trimmed value is exactly
eight ASCII alphanumeric characters resolves to that trimmed value
unchanged, independently of any collection-listing capability (name-based
resolution is consulted only for identifiers not of that shape). -/
theorem c10_eight_alnum_key_short_circuit
    (gc : Option (Except String Val)) (cid : String)
    (h : looksLikeCollectionKey (strTrim cid) = true) :
    resolveCollectionKey gc (some cid) = some (strTrim cid)
  ∧ ∀ gc' : Option (Except String Val),
      resolveCollectionKey gc (some cid) = resolveCollectionKey gc' (some cid) := by
  have hgen : ∀ g : Option (Except String Val),
      resolveCollectionKey g (some cid) = some (strTrim cid) := by
    intro g
    have hcid : ¬(cid = "") := by
      intro h0
      rw [h0] at h
      exact absurd h (by decide)
    have hval : ¬(strTrim cid = "") := by
      intro h0
      rw [h0] at h
      exact absurd h (by decide)
    simp only [resolveCollectionKey]
    rw [if_neg hcid, if_neg hval, if_pos h]
  exact ⟨hgen gc, fun gc' => by rw [hgen gc, hgen gc']⟩

/-- Witness for C10: the literal key ABCD1234 resolves to itself both
with no listing capability and with an empty listing. -/
theorem c10_eight_alnum_key_short_circuit_witness :
    resolveCollectionKey Option.none (some "ABCD1234") = some (strTrim "ABCD1234")
  ∧ resolveCollectionKey Option.none (some "ABCD1234")
      = resolveCollectionKey (some (Except.ok (Val.list []))) (some "ABCD1234") :=
  ⟨(c10_eight_alnum_key_short_circuit Option.none "ABCD1234" (by decide)).1,
   (c10_eight_alnum_key_short_circuit Option.none "ABCD1234" (by decide)).2
     (some (Except.ok (Val.list [])))⟩
